import Mathlib

/-!
Verification of the All-Chat browser extension core against its
natural-language specification.

The development shallowly embeds:

* the background service worker's WebSocket connector
  (`src/unnamed/part_010`: `connectWebSocket`, `disconnectWebSocket`,
  the `onopen`/`onmessage`/`onclose` handlers, heartbeat and the
  reconnect timer) as a state structure `SWState` with a step function
  over delivered events;
* the Twitch content script's channel extraction, mutation-observer
  rebuild logic and native-chat hiding
  (`src/src/content-scripts/twitch.ts`);
* the YouTube content script's native-chat hide/show, overlay removal
  and extension-disable handler
  (`src/src/content-scripts/twitch.ts`, YouTube half, and
  `src/src/content-scripts/youtube.ts`);
* the shared `PlatformDetector.init` decision structure
  (`src/src/content-scripts/base/PlatformDetector.ts`).

Timers and asynchronous callbacks are modelled as explicitly delivered
events; `JSON.parse` success/failure is modelled as an `Option`-valued
parse result, since the handler only distinguishes "parsed" from
"threw".
-/

namespace AllChat

/-- Connection states of the service worker
(`part_010` line 37: `type ConnectionState`). -/
inductive ConnectionState
  | connected
  | connecting
  | reconnecting
  | disconnected
  | failed
deriving DecidableEq, Repr

/-- The readyState of a browser WebSocket object, as far as the service
worker inspects it (it only ever compares against `WebSocket.OPEN`). -/
inductive ReadyState
  | connecting
  | opened
  | closing
  | closed
deriving DecidableEq, Repr

/-- A WebSocket object owned by the service worker: the streamer segment
baked into its URL and its current readyState. -/
structure Socket where
  streamer : String
  readyState : ReadyState
deriving DecidableEq, Repr

/-- A discriminated envelope received over the transport (§6 of the spec,
`lib/types`): discriminated by `type`; `payload` stands for the rest of
the JSON object verbatim. -/
structure Envelope where
  type : String
  payload : String
deriving DecidableEq, Repr

/-- A record fanned out to all tabs, via `broadcastConnectionState`
(`part_010` lines 306-331) or `handleWebSocketMessage`
(lines 336-355). -/
inductive Broadcast
  | connState (state : ConnectionState) (attempts maxAttempts : Nat)
      (reconnectIn : Option Nat)
  | wsMessage (env : Envelope)
deriving DecidableEq, Repr

/-- `const WS_MAX_RECONNECT_ATTEMPTS = 10` (`part_010` line 31). -/
def WS_MAX_RECONNECT_ATTEMPTS : Nat := 10

/-- `const WS_RECONNECT_DELAY_MS = 1000` (`part_010` line 32). -/
def WS_RECONNECT_DELAY_MS : Nat := 1000

/-- The module-level mutable state of the service worker
(`part_010` lines 27-38), together with two observation fields:
`broadcasts` logs every record sent to tabs (oldest first) and
`transportOpens` counts executions of `new WebSocket(url)`.
`pendingCloses` counts close events queued for sockets that were
explicitly `close()`d and whose close event has not yet been
delivered. -/
structure SWState where
  wsConnection : Option Socket
  wsStreamerUsername : Option String
  wsReconnectAttempts : Nat
  heartbeatActive : Bool
  reconnectTimeout : Option Nat
  currentConnectionState : ConnectionState
  pendingCloses : Nat
  broadcasts : List Broadcast
  transportOpens : Nat
deriving DecidableEq, Repr

/-- The state of the service worker right after load: no connection, no
streamer, zero attempts, no timers, `currentConnectionState`
initialised to `'disconnected'` (`part_010` line 38). -/
def initState : SWState :=
  { wsConnection := none
    wsStreamerUsername := none
    wsReconnectAttempts := 0
    heartbeatActive := false
    reconnectTimeout := none
    currentConnectionState := .disconnected
    pendingCloses := 0
    broadcasts := []
    transportOpens := 0 }

/-- `broadcastConnectionState(state, details?)` (`part_010` lines
306-331): records the state as current and sends a
`CONNECTION_STATE` record carrying `state`, the current
`wsReconnectAttempts`, `WS_MAX_RECONNECT_ATTEMPTS` and, when given in
`details`, `reconnectIn`. -/
def broadcastConnectionState (s : SWState) (st : ConnectionState)
    (reconnectIn : Option Nat) : SWState :=
  { s with
    currentConnectionState := st
    broadcasts := s.broadcasts ++
      [.connState st s.wsReconnectAttempts WS_MAX_RECONNECT_ATTEMPTS reconnectIn] }

/-- `stopWebSocketHeartbeat()` (`part_010` lines 296-301). -/
def stopWebSocketHeartbeat (s : SWState) : SWState :=
  { s with heartbeatActive := false }

/-- `handleWebSocketMessage(message)` (`part_010` lines 336-355):
broadcasts the parsed envelope verbatim as a `WS_MESSAGE` record to all
tabs; no filtering of any envelope type takes place. -/
def handleWebSocketMessage (m : Envelope) (s : SWState) : SWState :=
  { s with broadcasts := s.broadcasts ++ [.wsMessage m] }

/-- The body of the `onclose` handler (`part_010` lines 216-252),
run when any close event is delivered: stop the heartbeat, clear any
pending reconnect timeout, then either schedule a reconnect after
`WS_RECONNECT_DELAY_MS * wsReconnectAttempts` (after incrementing the
counter) and broadcast `'reconnecting'` with that countdown, or — when
the counter has exhausted `WS_MAX_RECONNECT_ATTEMPTS` — broadcast
`'failed'` and schedule nothing. -/
def oncloseHandler (s : SWState) : SWState :=
  let s := stopWebSocketHeartbeat s
  let s := { s with reconnectTimeout := none }
  if s.wsReconnectAttempts < WS_MAX_RECONNECT_ATTEMPTS then
    let s := { s with wsReconnectAttempts := s.wsReconnectAttempts + 1 }
    let delay := WS_RECONNECT_DELAY_MS * s.wsReconnectAttempts
    let s := broadcastConnectionState s .reconnecting (some delay)
    { s with reconnectTimeout := some delay }
  else
    broadcastConnectionState s .failed none

/-- The early-return guard of `connectWebSocket` (`part_010` line 159):
`wsConnection && wsConnection.readyState === WebSocket.OPEN &&
wsStreamerUsername === streamerUsername`. -/
def alreadyConnectedTo (s : SWState) (u : String) : Bool :=
  match s.wsConnection with
  | some c => c.readyState == .opened && s.wsStreamerUsername == some u
  | none => false

/-- `connectWebSocket(streamerUsername)` (`part_010` lines 157-253):
no-op when already connected (readyState OPEN) to the same streamer;
otherwise `close()` any previous connection (queueing its close
event), broadcast `'reconnecting'` or `'connecting'` depending on
whether `wsReconnectAttempts > 0`, then create a fresh WebSocket in
the CONNECTING state and record the streamer. -/
def connectWebSocket (u : String) (s : SWState) : SWState :=
  if alreadyConnectedTo s u then s
  else
    let s := match s.wsConnection with
      | some c =>
          { s with
            pendingCloses :=
              if c.readyState == .closed then s.pendingCloses
              else s.pendingCloses + 1 }
      | none => s
    let st : ConnectionState :=
      if s.wsReconnectAttempts > 0 then .reconnecting else .connecting
    let s := broadcastConnectionState s st none
    { s with
      wsConnection := some { streamer := u, readyState := .connecting }
      wsStreamerUsername := some u
      transportOpens := s.transportOpens + 1 }

/-- `disconnectWebSocket()` (`part_010` lines 258-275): `close()` the
connection, if any, and null out both the connection and the streamer;
stop the heartbeat; clear the reconnect timeout; reset
`wsReconnectAttempts` to 0; broadcast `'disconnected'`. -/
def disconnectWebSocket (s : SWState) : SWState :=
  let s := match s.wsConnection with
    | some c =>
        { s with
          wsConnection := none
          wsStreamerUsername := none
          pendingCloses :=
            if c.readyState == .closed then s.pendingCloses
            else s.pendingCloses + 1 }
    | none => s
  let s := stopWebSocketHeartbeat s
  let s := { s with reconnectTimeout := none }
  let s := { s with wsReconnectAttempts := 0 }
  broadcastConnectionState s .disconnected none

/-- The events delivered to the service worker's single-threaded
execution context: explicit `CONNECT_WEBSOCKET` / `DISCONNECT_WEBSOCKET`
requests, the transport's `open` / `close` / `message` callbacks, and
the firing of the scheduled reconnect timeout. The `message` event
carries the outcome of `JSON.parse` on the frame (`none` = parse
threw). -/
inductive Ev
  | connect (u : String)
  | disconnect
  | openEvt
  | closeEvt
  | msgEvt (parsed : Option Envelope)
  | timerFire
deriving DecidableEq, Repr

/-- One dispatch of an event by the service worker. `openEvt` fires only
for a socket still in the CONNECTING state (a closed socket never
completes its handshake); `closeEvt` is delivered either for the
current socket (marking it CLOSED) or for a previously `close()`d
socket still owing its close event — both run the same global
`onclose` body; `timerFire` runs the scheduled callback
(`part_010` lines 239-243), which calls `connectWebSocket` only when
`wsStreamerUsername` is non-null. -/
def step (s : SWState) : Ev → SWState
  | .connect u => connectWebSocket u s
  | .disconnect => disconnectWebSocket s
  | .openEvt =>
      match s.wsConnection with
      | some c =>
          if c.readyState == .connecting then
            let s := { s with
              wsConnection := some { c with readyState := .opened }
              wsReconnectAttempts := 0
              heartbeatActive := true }
            broadcastConnectionState s .connected none
          else s
      | none => s
  | .closeEvt =>
      match s.wsConnection with
      | some c =>
          if c.readyState == .closed then
            if s.pendingCloses > 0 then
              oncloseHandler { s with pendingCloses := s.pendingCloses - 1 }
            else s
          else
            oncloseHandler { s with wsConnection := some { c with readyState := .closed } }
      | none =>
          if s.pendingCloses > 0 then
            oncloseHandler { s with pendingCloses := s.pendingCloses - 1 }
          else s
  | .msgEvt parsed =>
      match parsed with
      | none => s
      | some m => handleWebSocketMessage m s
  | .timerFire =>
      match s.reconnectTimeout with
      | none => s
      | some _ =>
          let s := { s with reconnectTimeout := none }
          match s.wsStreamerUsername with
          | some u => connectWebSocket u s
          | none => s

/-- Events that occur without any explicit request from a content
script or the popup: transport callbacks and timer firings. -/
def Ev.isAuto : Ev → Bool
  | .connect _ => false
  | .disconnect => false
  | _ => true

/-- Folding a list of delivered events. -/
def run (s : SWState) (evs : List Ev) : SWState :=
  evs.foldl step s

/-! ### Channel resolution (Twitch content script) -/

/-- The exclusion set of special, non-channel Twitch pages
(`twitch.ts` line 21). -/
def twitchExcluded : List String :=
  ["directory", "downloads", "jobs", "turbo", "settings",
   "subscriptions", "inventory", "wallet", "drops"]

/-- The capture of the regex `^\/([^\/]+)` applied to
`window.location.pathname` (`twitch.ts` line 15): the first path
segment, provided the path starts with `/` and the segment is
non-empty. -/
def firstPathSegment (pathname : String) : Option String :=
  match pathname.data with
  | '/' :: rest =>
      let seg := rest.takeWhile (fun c => c != '/')
      if seg.isEmpty then none else some (String.mk seg)
  | _ => none

/-- ASCII lowercasing, the effect of JS `toLowerCase()` on the ASCII
path segments compared against the exclusion set. -/
def lowerChar (c : Char) : Char :=
  if c.isUpper then Char.ofNat (c.toNat + 32) else c

/-- `username.toLowerCase()` (`twitch.ts` line 22). -/
def lowerString (s : String) : String :=
  String.mk (s.data.map lowerChar)

/-- `TwitchDetector.extractStreamerUsername` (`twitch.ts` lines 13-27):
the first path segment, unless (lowercased) it is one of the excluded
special pages. -/
def extractStreamerUsername (pathname : String) : Option String :=
  match firstPathSegment pathname with
  | none => none
  | some username =>
      if twitchExcluded.contains (lowerString username) then none
      else some username

/-! ### PlatformDetector.init decision structure -/

/-- `StreamerInfo` as consumed by `PlatformDetector.init`: the opaque
routing identifier returned by the channel lookup collaborator. -/
structure StreamerInfo where
  overlay_id : String
deriving DecidableEq, Repr

/-- What one `init()` pass did: whether a session was requested
(`CONNECT_WEBSOCKET` sent, with which key), whether an overlay
container was created, and whether an error was emitted
(`console.error`). -/
structure InitOutcome where
  sessionRequested : Option String
  overlayCreated : Bool
  errorEmitted : Bool
deriving DecidableEq, Repr

/-- The decision structure of `PlatformDetector.init`
(`PlatformDetector.ts` lines 39-76), with the channel-lookup
collaborator abstracted as `lookup` and the success of
`createInjectionPoint` as `mountOk`: no extracted username — plain
return, nothing created, nothing emitted; streamer unknown — a
transient badge, no overlay, no session, no error thrown; otherwise
hide native chat, create the mount, inject the UI and request the
session for `overlay_id`, or log an error if no mount anchor
resolves. -/
def detectorInit (pathname : String) (lookup : String → Option StreamerInfo)
    (mountOk : Bool) : InitOutcome :=
  match extractStreamerUsername pathname with
  | none => ⟨none, false, false⟩
  | some username =>
      match lookup username with
      | none => ⟨none, false, false⟩
      | some info =>
          if mountOk then ⟨some info.overlay_id, true, false⟩
          else ⟨none, false, true⟩

/-! ### Mutation observer (Twitch content script) -/

/-- The debounce delay of the re-injection scheduled by the
MutationObserver (`twitch.ts` line 191: `setTimeout(..., 500)`). -/
def REINIT_DEBOUNCE_MS : Nat := 500

/-- The rebuild decision of the MutationObserver callback
(`twitch.ts` lines 181-194): schedule a debounced `detector.init()`
after 500 ms iff the allchat container is gone while the native chat
container is present; otherwise schedule nothing. -/
def mutationTickSchedulesReinit (allchatExists nativeExists : Bool) :
    Option Nat :=
  if !allchatExists && nativeExists then some REINIT_DEBOUNCE_MS else none

/-! ### Native chat hiding (Twitch) -/

/-- The Twitch page as far as `TwitchDetector.hideNativeChat` touches
it: whether the `#allchat-hide-native-style` style element has been
injected into `<head>`, and how many native chat elements the host
page currently has in the document. -/
structure TwitchDoc where
  hideStyleInjected : Bool
  nativeChatElems : Nat
deriving DecidableEq, Repr

/-- `TwitchDetector.hideNativeChat` (`twitch.ts` lines 42-69): if the
hide-style element already exists, return; otherwise append a new
`<style>` element that hides the native chat selectors via
`visibility: hidden` and `height: 0`. No host element is removed or
otherwise written. -/
def twitchHideNativeChat (d : TwitchDoc) : TwitchDoc :=
  if d.hideStyleInjected then d else { d with hideStyleInjected := true }

/-- Whether the native chat elements are visible on the Twitch page:
they are hidden exactly while the injected style element is present. -/
def twitchNativeVisible (d : TwitchDoc) : Bool :=
  !d.hideStyleInjected

/-! ### Native chat hide/show and overlay removal (YouTube) -/

/-- The host page's live chat frame as far as the YouTube detector
touches it: its inline `display: none` style and the
`data-allchat-hidden` marker attribute. -/
structure ChatFrame where
  displayNone : Bool
  allchatHiddenAttr : Bool
deriving DecidableEq, Repr

/-- The YouTube page as far as the detector touches it: the host-owned
chat frame (if the page has one) and the extension-created
`#allchat-container`. -/
structure YouTubeDoc where
  chatFrame : Option ChatFrame
  allchatContainer : Bool
deriving DecidableEq, Repr

/-- `YouTubeDetector.hideNativeChat` (`youtube.ts` lines 44-50): if a
chat frame is found, set `style.display = 'none'` and the
`data-allchat-hidden` attribute on it; the element stays in the
document. -/
def ytHideNativeChat (d : YouTubeDoc) : YouTubeDoc :=
  match d.chatFrame with
  | some _ =>
      { d with chatFrame := some { displayNone := true, allchatHiddenAttr := true } }
  | none => d

/-- `YouTubeDetector.showNativeChat` (`twitch.ts` YouTube half, lines
356-363): if an element carries `data-allchat-hidden="true"`, clear its
`display` style and remove the attribute. -/
def ytShowNativeChat (d : YouTubeDoc) : YouTubeDoc :=
  match d.chatFrame with
  | some f =>
      if f.allchatHiddenAttr then
        { d with chatFrame := some { displayNone := false, allchatHiddenAttr := false } }
      else d
  | none => d

/-- `YouTubeDetector.removeAllChatUI` (`twitch.ts` YouTube half, lines
365-371): removes only the extension's own `#allchat-container`. -/
def ytRemoveAllChatUI (d : YouTubeDoc) : YouTubeDoc :=
  { d with allchatContainer := false }

/-! ### Extension disable signal -/

/-- The content-script side of one page: whether an overlay container is
present, whether the native chat is currently hidden, and whether the
detector singleton (`globalDetector`) is still set. -/
structure ContentState where
  overlayPresent : Bool
  nativeChatHidden : Bool
  detectorActive : Bool
deriving DecidableEq, Repr

/-- One page context paired with the background service worker it talks
to. -/
structure System where
  sw : SWState
  cs : ContentState
deriving DecidableEq, Repr

/-- `handleExtensionStateChange(enabled)` (`twitch.ts` YouTube half,
lines 402-415): on disable, if the detector is still set, remove the
All-Chat UI, restore the native chat and clear the detector; nothing is
sent to the service worker. Re-enabling is handled by a page reload. -/
def handleExtensionStateChange (enabled : Bool) (sys : System) : System :=
  if enabled then sys
  else if sys.cs.detectorActive then
    { sys with
      cs := { overlayPresent := false
              nativeChatHidden := false
              detectorActive := false } }
  else sys

/-! ### Sample states used by witnesses -/

/-- A service worker that connected to streamer `"alpha"` and completed
the handshake. -/
def sampleConnected : SWState :=
  step (step initState (.connect "alpha")) .openEvt

/-- A page whose overlay is up, with its native chat hidden, talking to
a connected service worker. -/
def sampleSystem : System :=
  { sw := sampleConnected
    cs := { overlayPresent := true, nativeChatHidden := true, detectorActive := true } }

/-- A connected service worker whose reconnect attempt counter has been
driven to the maximum. -/
def sampleExhausted : SWState :=
  { sampleConnected with wsReconnectAttempts := WS_MAX_RECONNECT_ATTEMPTS }

/-- The service worker right after an explicit
`DISCONNECT_WEBSOCKET` tore down the connected session. -/
def sampleTornDown : SWState :=
  step sampleConnected .disconnect

/-! ### Stability predicates -/

/-- No socket held by the service worker is still performing its
handshake (so no `open` event can be delivered for it). -/
def SocketNotConnecting (s : SWState) : Prop :=
  ∀ c, s.wsConnection = some c → c.readyState ≠ .connecting

/-- The shape of a terminal `Failed` state: failed, no pending reconnect
timer, attempt counter exhausted, no socket mid-handshake. -/
def FailedStable (s : SWState) : Prop :=
  s.currentConnectionState = .failed ∧
  s.reconnectTimeout = none ∧
  WS_MAX_RECONNECT_ATTEMPTS ≤ s.wsReconnectAttempts ∧
  SocketNotConnecting s

/-! ## Helper lemmas -/

/-- With the attempt counter exhausted, the `onclose` body takes the
failed branch: it broadcasts `'failed'` and schedules nothing. -/
lemma oncloseHandler_of_max (s : SWState)
    (h : WS_MAX_RECONNECT_ATTEMPTS ≤ s.wsReconnectAttempts) :
    oncloseHandler s =
      { s with
        heartbeatActive := false
        reconnectTimeout := none
        currentConnectionState := .failed
        broadcasts := s.broadcasts ++
          [.connState .failed s.wsReconnectAttempts WS_MAX_RECONNECT_ATTEMPTS none] } := by
  unfold oncloseHandler
  simp [stopWebSocketHeartbeat, broadcastConnectionState, Nat.not_lt.mpr h]

/-- With the attempt counter not yet exhausted, the `onclose` body takes
the reconnect branch: it increments the counter, broadcasts
`'reconnecting'` with the linear delay and schedules the retry. -/
lemma oncloseHandler_of_lt (s : SWState)
    (h : s.wsReconnectAttempts < WS_MAX_RECONNECT_ATTEMPTS) :
    oncloseHandler s =
      { s with
        heartbeatActive := false
        reconnectTimeout := some (WS_RECONNECT_DELAY_MS * (s.wsReconnectAttempts + 1))
        wsReconnectAttempts := s.wsReconnectAttempts + 1
        currentConnectionState := .reconnecting
        broadcasts := s.broadcasts ++
          [.connState .reconnecting (s.wsReconnectAttempts + 1)
            WS_MAX_RECONNECT_ATTEMPTS
            (some (WS_RECONNECT_DELAY_MS * (s.wsReconnectAttempts + 1)))] } := by
  unfold oncloseHandler
  simp [stopWebSocketHeartbeat, broadcastConnectionState, h]

/-- The `onclose` body never changes which socket is held. -/
lemma oncloseHandler_wsConnection (s : SWState) :
    (oncloseHandler s).wsConnection = s.wsConnection := by
  unfold oncloseHandler
  by_cases h : s.wsReconnectAttempts < WS_MAX_RECONNECT_ATTEMPTS <;>
    simp [h, broadcastConnectionState, stopWebSocketHeartbeat]

/-- The `onclose` body never opens a transport. -/
lemma oncloseHandler_transportOpens (s : SWState) :
    (oncloseHandler s).transportOpens = s.transportOpens := by
  unfold oncloseHandler
  by_cases h : s.wsReconnectAttempts < WS_MAX_RECONNECT_ATTEMPTS <;>
    simp [h, broadcastConnectionState, stopWebSocketHeartbeat]

/-- The `onclose` body never changes the recorded streamer. -/
lemma oncloseHandler_wsStreamerUsername (s : SWState) :
    (oncloseHandler s).wsStreamerUsername = s.wsStreamerUsername := by
  unfold oncloseHandler
  by_cases h : s.wsReconnectAttempts < WS_MAX_RECONNECT_ATTEMPTS <;>
    simp [h, broadcastConnectionState, stopWebSocketHeartbeat]

/-- With the counter exhausted, the `onclose` body keeps the counter. -/
lemma oncloseHandler_attempts_of_max (s : SWState)
    (h : WS_MAX_RECONNECT_ATTEMPTS ≤ s.wsReconnectAttempts) :
    (oncloseHandler s).wsReconnectAttempts = s.wsReconnectAttempts := by
  rw [oncloseHandler_of_max s h]

/-- With the counter exhausted, the `onclose` body goes to `failed`. -/
lemma oncloseHandler_state_of_max (s : SWState)
    (h : WS_MAX_RECONNECT_ATTEMPTS ≤ s.wsReconnectAttempts) :
    (oncloseHandler s).currentConnectionState = .failed := by
  rw [oncloseHandler_of_max s h]

/-- With the counter exhausted, the `onclose` body schedules nothing. -/
lemma oncloseHandler_timer_of_max (s : SWState)
    (h : WS_MAX_RECONNECT_ATTEMPTS ≤ s.wsReconnectAttempts) :
    (oncloseHandler s).reconnectTimeout = none := by
  rw [oncloseHandler_of_max s h]

/-- An `open` event is a no-op when no held socket is mid-handshake. -/
lemma step_openEvt_of_notConnecting (s : SWState)
    (hsock : SocketNotConnecting s) : step s .openEvt = s := by
  cases hc : s.wsConnection with
  | none => simp [step, hc]
  | some c =>
      have hb : (c.readyState == ReadyState.connecting) = false := by
        simpa [beq_iff_eq] using hsock c hc
      simp [step, hc, hb]

/-- A timer-fire event is a no-op when no timer is pending. -/
lemma step_timerFire_of_none (s : SWState)
    (h : s.reconnectTimeout = none) : step s .timerFire = s := by
  simp [step, h]

/-- A terminal `Failed` state absorbs every automatic event: the state
stays terminal and no transport is opened. -/
lemma failedStable_step (s : SWState) (e : Ev)
    (hs : FailedStable s) (he : e.isAuto = true) :
    FailedStable (step s e) ∧ (step s e).transportOpens = s.transportOpens := by
  obtain ⟨hstate, htimer, hmax, hsock⟩ := hs
  cases e with
  | connect u => simp [Ev.isAuto] at he
  | disconnect => simp [Ev.isAuto] at he
  | openEvt =>
      rw [step_openEvt_of_notConnecting s hsock]
      exact ⟨⟨hstate, htimer, hmax, hsock⟩, rfl⟩
  | closeEvt =>
      cases hc : s.wsConnection with
      | none =>
          by_cases hp : s.pendingCloses > 0
          · have hstep : step s .closeEvt =
                oncloseHandler { s with pendingCloses := s.pendingCloses - 1 } := by
              simp [step, hc, hp]
            rw [hstep]
            refine ⟨⟨oncloseHandler_state_of_max _ hmax,
                     oncloseHandler_timer_of_max _ hmax, ?_, ?_⟩, ?_⟩
            · rw [oncloseHandler_attempts_of_max
                    { s with pendingCloses := s.pendingCloses - 1 } hmax]
              exact hmax
            · intro c' h'
              rw [oncloseHandler_wsConnection] at h'
              exact absurd (hc ▸ h') (by simp)
            · rw [oncloseHandler_transportOpens]
          · have hstep : step s .closeEvt = s := by simp [step, hc, hp]
            rw [hstep]
            exact ⟨⟨hstate, htimer, hmax, hsock⟩, rfl⟩
      | some c =>
          by_cases hcl : (c.readyState == ReadyState.closed) = true
          · by_cases hp : s.pendingCloses > 0
            · have hstep : step s .closeEvt =
                  oncloseHandler { s with pendingCloses := s.pendingCloses - 1 } := by
                simp [step, hc, hcl, hp]
              rw [hstep]
              refine ⟨⟨oncloseHandler_state_of_max _ hmax,
                       oncloseHandler_timer_of_max _ hmax, ?_, ?_⟩, ?_⟩
              · rw [oncloseHandler_attempts_of_max
                      { s with pendingCloses := s.pendingCloses - 1 } hmax]
                exact hmax
              · intro c' h'
                rw [oncloseHandler_wsConnection] at h'
                have hcc : c' = c := by
                  have h2 := hc ▸ h'
                  exact (Option.some_inj.mp h2).symm
                rw [hcc]
                rw [beq_iff_eq] at hcl
                simp [hcl]
              · rw [oncloseHandler_transportOpens]
            · have hstep : step s .closeEvt = s := by simp [step, hc, hcl, hp]
              rw [hstep]
              exact ⟨⟨hstate, htimer, hmax, hsock⟩, rfl⟩
          · have hstep : step s .closeEvt =
                oncloseHandler { s with wsConnection := some { c with readyState := .closed } } := by
              simp [step, hc, hcl]
            rw [hstep]
            refine ⟨⟨oncloseHandler_state_of_max _ hmax,
                     oncloseHandler_timer_of_max _ hmax, ?_, ?_⟩, ?_⟩
            · rw [oncloseHandler_attempts_of_max
                    { s with wsConnection := some { c with readyState := .closed } } hmax]
              exact hmax
            · intro c' h'
              rw [oncloseHandler_wsConnection] at h'
              have hcc : c' = { c with readyState := ReadyState.closed } :=
                (Option.some_inj.mp h').symm
              rw [hcc]
              simp
            · rw [oncloseHandler_transportOpens]
  | msgEvt parsed =>
      cases parsed with
      | none => exact ⟨⟨hstate, htimer, hmax, hsock⟩, rfl⟩
      | some m =>
          refine ⟨⟨hstate, htimer, hmax, ?_⟩, rfl⟩
          intro c' h'
          exact hsock c' h'
  | timerFire =>
      rw [step_timerFire_of_none s htimer]
      exact ⟨⟨hstate, htimer, hmax, hsock⟩, rfl⟩

/-- `failedStable_step`, folded over a whole list of automatic events. -/
lemma failedStable_run (s : SWState) (evs : List Ev)
    (hs : FailedStable s) (he : ∀ e ∈ evs, e.isAuto = true) :
    FailedStable (run s evs) ∧ (run s evs).transportOpens = s.transportOpens := by
  induction evs generalizing s with
  | nil => exact ⟨hs, rfl⟩
  | cons e evs ih =>
      have h1 := failedStable_step s e hs (he e (by simp))
      have h2 := ih (step s e) h1.1 (fun e' h' => he e' (by simp [h']))
      exact ⟨h2.1, by rw [run] at h2 ⊢; simpa [h1.2] using h2.2⟩

/-- With no socket held and no recorded streamer, an automatic event
never opens a transport and never restores either field. -/
lemma nullSession_step (s : SWState) (e : Ev)
    (hc : s.wsConnection = none) (hu : s.wsStreamerUsername = none)
    (he : e.isAuto = true) :
    (step s e).wsConnection = none ∧ (step s e).wsStreamerUsername = none ∧
    (step s e).transportOpens = s.transportOpens := by
  cases e with
  | connect u => simp [Ev.isAuto] at he
  | disconnect => simp [Ev.isAuto] at he
  | openEvt => simp [step, hc, hu]
  | closeEvt =>
      by_cases hp : s.pendingCloses > 0
      · have hstep : step s .closeEvt =
            oncloseHandler { s with pendingCloses := s.pendingCloses - 1 } := by
          simp [step, hc, hp]
        rw [hstep, oncloseHandler_wsConnection, oncloseHandler_wsStreamerUsername,
            oncloseHandler_transportOpens]
        exact ⟨hc, hu, rfl⟩
      · have hstep : step s .closeEvt = s := by simp [step, hc, hp]
        rw [hstep]
        exact ⟨hc, hu, rfl⟩
  | msgEvt p =>
      cases p with
      | none => exact ⟨hc, hu, rfl⟩
      | some m => exact ⟨hc, hu, rfl⟩
  | timerFire =>
      cases ht : s.reconnectTimeout with
      | none =>
          rw [step_timerFire_of_none s ht]
          exact ⟨hc, hu, rfl⟩
      | some d => simp [step, ht, hu, hc]

/-- `nullSession_step`, folded over a whole list of automatic events. -/
lemma nullSession_run (s : SWState) (evs : List Ev)
    (hc : s.wsConnection = none) (hu : s.wsStreamerUsername = none)
    (he : ∀ e ∈ evs, e.isAuto = true) :
    (run s evs).transportOpens = s.transportOpens := by
  induction evs generalizing s with
  | nil => rfl
  | cons e evs ih =>
      have h1 := nullSession_step s e hc hu (he e (by simp))
      have h2 := ih (step s e) h1.1 h1.2.1 (fun e' h' => he e' (by simp [h']))
      rw [run] at h2 ⊢
      simpa [h1.2.2] using h2

/-- After `disconnectWebSocket`, no socket is held. -/
lemma disconnect_wsConnection (s : SWState) :
    (disconnectWebSocket s).wsConnection = none := by
  cases hcc : s.wsConnection <;>
    simp [disconnectWebSocket, stopWebSocketHeartbeat, broadcastConnectionState, hcc]

/-- The unconditional effects of `disconnectWebSocket`: state forced to
`'disconnected'`, timers gone, counter reset. -/
lemma disconnect_fields (s : SWState) :
    (disconnectWebSocket s).currentConnectionState = .disconnected ∧
    (disconnectWebSocket s).reconnectTimeout = none ∧
    (disconnectWebSocket s).heartbeatActive = false ∧
    (disconnectWebSocket s).wsReconnectAttempts = 0 := by
  cases hcc : s.wsConnection <;>
    simp [disconnectWebSocket, stopWebSocketHeartbeat, broadcastConnectionState, hcc]

/-- After `disconnectWebSocket`, the streamer key is null — provided it
was null already whenever no socket was held (true of every reachable
state). -/
lemma disconnect_wsStreamerUsername (s : SWState)
    (hinv : s.wsConnection = none → s.wsStreamerUsername = none) :
    (disconnectWebSocket s).wsStreamerUsername = none := by
  cases hcc : s.wsConnection with
  | none =>
      simp [disconnectWebSocket, stopWebSocketHeartbeat, broadcastConnectionState, hcc,
            hinv hcc]
  | some c =>
      simp [disconnectWebSocket, stopWebSocketHeartbeat, broadcastConnectionState, hcc]

/-! ## Claims -/

/-- C1: for every reconnect attempt n (1 ≤ n ≤ maxAttempts) after an
unexpected close of the held transport, the connector schedules the
next attempt after exactly `WS_RECONNECT_DELAY_MS * n` milliseconds
(linear backoff), and that delay is included in the broadcast
`'reconnecting'` record along with the attempt number. -/
theorem C1_linear_backoff_delay (s : SWState) (c : Socket) (n : Nat)
    (hconn : s.wsConnection = some c) (hrs : c.readyState ≠ .closed)
    (hn : s.wsReconnectAttempts + 1 = n)
    (hle : n ≤ WS_MAX_RECONNECT_ATTEMPTS) :
    (step s .closeEvt).reconnectTimeout = some (WS_RECONNECT_DELAY_MS * n) ∧
    (step s .closeEvt).wsReconnectAttempts = n ∧
    (step s .closeEvt).broadcasts = s.broadcasts ++
      [.connState .reconnecting n WS_MAX_RECONNECT_ATTEMPTS
        (some (WS_RECONNECT_DELAY_MS * n))] := by
  subst hn
  have hcl : (c.readyState == ReadyState.closed) = false := by
    simpa [beq_iff_eq] using hrs
  have hlt : s.wsReconnectAttempts < WS_MAX_RECONNECT_ATTEMPTS := by omega
  have hstep : step s .closeEvt =
      oncloseHandler { s with wsConnection := some { c with readyState := .closed } } := by
    simp [step, hconn, hcl]
  rw [hstep,
      oncloseHandler_of_lt { s with wsConnection := some { c with readyState := .closed } } hlt]
  simp

/-- C1 witness: the first unexpected close of the freshly connected
sample session schedules a 1000 ms retry and broadcasts it. -/
theorem C1_linear_backoff_delay_witness :
    (step sampleConnected .closeEvt).reconnectTimeout =
      some (WS_RECONNECT_DELAY_MS * 1) ∧
    (step sampleConnected .closeEvt).wsReconnectAttempts = 1 ∧
    (step sampleConnected .closeEvt).broadcasts = sampleConnected.broadcasts ++
      [.connState .reconnecting 1 WS_MAX_RECONNECT_ATTEMPTS
        (some (WS_RECONNECT_DELAY_MS * 1))] :=
  C1_linear_backoff_delay sampleConnected ⟨"alpha", .opened⟩ 1
    (by decide) (by decide) (by decide) (by decide)

/-- C2: once the attempt counter has exhausted the maximum, the next
close drives the session to `'failed'` with no reconnect timer, and no
sequence of automatic events (transport callbacks, timer firings) ever
leaves `'failed'` or opens another transport; only an explicit new
`connectWebSocket` request could. -/
theorem C2_failed_terminal (s : SWState) (c : Socket) (evs : List Ev)
    (hconn : s.wsConnection = some c) (hrs : c.readyState ≠ .closed)
    (hmax : s.wsReconnectAttempts = WS_MAX_RECONNECT_ATTEMPTS)
    (hauto : ∀ e ∈ evs, e.isAuto = true) :
    (step s .closeEvt).currentConnectionState = .failed ∧
    (step s .closeEvt).reconnectTimeout = none ∧
    (run (step s .closeEvt) evs).currentConnectionState = .failed ∧
    (run (step s .closeEvt) evs).transportOpens =
      (step s .closeEvt).transportOpens := by
  have hcl : (c.readyState == ReadyState.closed) = false := by
    simpa [beq_iff_eq] using hrs
  have hstep : step s .closeEvt =
      oncloseHandler { s with wsConnection := some { c with readyState := .closed } } := by
    simp [step, hconn, hcl]
  have hge : WS_MAX_RECONNECT_ATTEMPTS ≤
      ({ s with wsConnection := some { c with readyState := .closed } } : SWState).wsReconnectAttempts := by
    simpa using hmax.ge
  have hFS : FailedStable (step s .closeEvt) := by
    rw [hstep]
    refine ⟨oncloseHandler_state_of_max _ hge, oncloseHandler_timer_of_max _ hge, ?_, ?_⟩
    · rw [oncloseHandler_attempts_of_max _ hge]
      exact hge
    · intro c' h'
      rw [oncloseHandler_wsConnection] at h'
      have hcc : c' = { c with readyState := ReadyState.closed } :=
        (Option.some_inj.mp h').symm
      rw [hcc]
      simp
  have h2 := failedStable_run (step s .closeEvt) evs hFS hauto
  exact ⟨hFS.1, hFS.2.1, h2.1.1, h2.2⟩

/-- C2 witness: the sample session with an exhausted counter fails on
the next close and stays failed, opening nothing, across a timer
firing, a message and a further close. -/
theorem C2_failed_terminal_witness :
    (step sampleExhausted .closeEvt).currentConnectionState = .failed ∧
    (step sampleExhausted .closeEvt).reconnectTimeout = none ∧
    (run (step sampleExhausted .closeEvt)
        [.timerFire, .msgEvt none, .closeEvt]).currentConnectionState = .failed ∧
    (run (step sampleExhausted .closeEvt)
        [.timerFire, .msgEvt none, .closeEvt]).transportOpens =
      (step sampleExhausted .closeEvt).transportOpens :=
  C2_failed_terminal sampleExhausted ⟨"alpha", .opened⟩
    [.timerFire, .msgEvt none, .closeEvt]
    (by decide) (by decide) (by decide) (by decide)

/-- C3 counterexample: a second `connectWebSocket` for the same key
while the first connection is still `Connecting` (readyState
CONNECTING, not OPEN) is not a no-op — it opens a second transport, so
the claim's "state is Connected or Connecting → no-op" fails on the
code, which only early-returns on readyState OPEN. -/
theorem C3_counterexample_connecting_reopen :
    (step initState (.connect "alpha")).currentConnectionState = .connecting ∧
    (step initState (.connect "alpha")).wsStreamerUsername = some "alpha" ∧
    (step (step initState (.connect "alpha")) (.connect "alpha")).transportOpens = 2 := by
  decide

/-- C3 amended: `connectWebSocket` is idempotent for an unchanged key
only when the existing connection has readyState OPEN (`Connected`):
then the call is a strict no-op; and two consecutive calls with the
same key perform exactly one transport open provided the first
connection completed its handshake in between. -/
theorem C3_idempotent_only_when_open (s : SWState) (u : String)
    (h : alreadyConnectedTo s u = true) :
    step s (.connect u) = s ∧
    (run initState [.connect u, .openEvt, .connect u]).transportOpens = 1 := by
  constructor
  · simp [step, connectWebSocket, h]
  · simp [run, step, connectWebSocket, alreadyConnectedTo, broadcastConnectionState,
          initState]

/-- C3 witness: the no-op on the connected sample session. -/
theorem C3_idempotent_only_when_open_witness :
    step sampleConnected (.connect "alpha") = sampleConnected ∧
    (run initState [.connect "alpha", .openEvt, .connect "alpha"]).transportOpens = 1 :=
  C3_idempotent_only_when_open sampleConnected "alpha" (by decide)

/-- C4 counterexample: after `disconnectWebSocket` completes (state
`'disconnected'`, counter 0, no timer), the torn-down socket's deferred
close event still runs the reconnect branch: the session transitions to
`'reconnecting'`, the counter becomes 1 and a 1000 ms timer is
scheduled — contradicting "no further state transition (such as
Reconnecting) occurs". -/
theorem C4_counterexample_close_after_teardown :
    sampleTornDown.currentConnectionState = .disconnected ∧
    sampleTornDown.wsReconnectAttempts = 0 ∧
    sampleTornDown.reconnectTimeout = none ∧
    (step sampleTornDown .closeEvt).currentConnectionState = .reconnecting ∧
    (step sampleTornDown .closeEvt).wsReconnectAttempts = 1 ∧
    (step sampleTornDown .closeEvt).reconnectTimeout = some 1000 := by
  decide

/-- C4 amended: `disconnectWebSocket` forces the session to
`'disconnected'`, unconditionally clears the reconnect timer and the
heartbeat, resets the attempt counter to 0, drops the socket and the
streamer key, is safe when no session exists, and afterwards no
automatic event ever opens a transport (the deferred close event of the
torn-down socket still broadcasts a `'reconnecting'` record, but its
scheduled timer finds the streamer key null and reconnects nothing).
The hypothesis is the invariant, true of every reachable state, that
the streamer key is null whenever no socket is held. -/
theorem C4_teardown_releases_all (s : SWState) (evs : List Ev)
    (hinv : s.wsConnection = none → s.wsStreamerUsername = none)
    (hauto : ∀ e ∈ evs, e.isAuto = true) :
    (disconnectWebSocket s).currentConnectionState = .disconnected ∧
    (disconnectWebSocket s).reconnectTimeout = none ∧
    (disconnectWebSocket s).heartbeatActive = false ∧
    (disconnectWebSocket s).wsReconnectAttempts = 0 ∧
    (disconnectWebSocket s).wsConnection = none ∧
    (disconnectWebSocket s).wsStreamerUsername = none ∧
    (run (disconnectWebSocket s) evs).transportOpens =
      (disconnectWebSocket s).transportOpens := by
  obtain ⟨h1, h2, h3, h4⟩ := disconnect_fields s
  have h5 := disconnect_wsConnection s
  have h6 := disconnect_wsStreamerUsername s hinv
  exact ⟨h1, h2, h3, h4, h5, h6, nullSession_run _ evs h5 h6 hauto⟩

/-- C4 witness: tearing down the connected sample session, then letting
the deferred close event and the timer fire, opens no transport. -/
theorem C4_teardown_releases_all_witness :
    (disconnectWebSocket sampleConnected).currentConnectionState = .disconnected ∧
    (disconnectWebSocket sampleConnected).reconnectTimeout = none ∧
    (disconnectWebSocket sampleConnected).heartbeatActive = false ∧
    (disconnectWebSocket sampleConnected).wsReconnectAttempts = 0 ∧
    (disconnectWebSocket sampleConnected).wsConnection = none ∧
    (disconnectWebSocket sampleConnected).wsStreamerUsername = none ∧
    (run (disconnectWebSocket sampleConnected)
        [.closeEvt, .timerFire]).transportOpens =
      (disconnectWebSocket sampleConnected).transportOpens :=
  C4_teardown_releases_all sampleConnected [.closeEvt, .timerFire]
    (by decide) (by decide)

/-- C5 counterexample: `handleWebSocketMessage` broadcasts `ping` and
`pong` envelopes to the tabs like any other type, so consumers do
receive the liveness frames — they are not swallowed by the
connector. -/
theorem C5_counterexample_ping_forwarded :
    (step initState (.msgEvt (some ⟨"ping", "liveness"⟩))).broadcasts =
      [Broadcast.wsMessage ⟨"ping", "liveness"⟩] ∧
    (step initState (.msgEvt (some ⟨"pong", "liveness"⟩))).broadcasts =
      [Broadcast.wsMessage ⟨"pong", "liveness"⟩] := by
  decide

/-- C5 amended: for every inbound envelope that parses, the connector
forwards it to consumers unchanged (verbatim payload) regardless of its
type — including `ping`/`pong` liveness frames, which are not swallowed
— and the forwarding changes nothing else in the session. -/
theorem C5_forwards_all_types_verbatim (s : SWState) (m : Envelope) :
    (step s (.msgEvt (some m))).broadcasts = s.broadcasts ++ [.wsMessage m] ∧
    (step s (.msgEvt (some m))).currentConnectionState = s.currentConnectionState ∧
    (step s (.msgEvt (some m))).wsReconnectAttempts = s.wsReconnectAttempts ∧
    (step s (.msgEvt (some m))).heartbeatActive = s.heartbeatActive ∧
    (step s (.msgEvt (some m))).reconnectTimeout = s.reconnectTimeout ∧
    (step s (.msgEvt (some m))).wsConnection = s.wsConnection :=
  ⟨rfl, rfl, rfl, rfl, rfl, rfl⟩

/-- C6 counterexample: the disable signal on a connected system removes
the overlay and restores the native chat, but the session's transport
is not released and its state is still `'connected'` — the claimed full
teardown to `Disconnected` does not happen. -/
theorem C6_counterexample_session_kept :
    (handleExtensionStateChange false sampleSystem).cs.overlayPresent = false ∧
    (handleExtensionStateChange false sampleSystem).cs.nativeChatHidden = false ∧
    (handleExtensionStateChange false sampleSystem).sw.currentConnectionState = .connected ∧
    (handleExtensionStateChange false sampleSystem).sw.wsConnection =
      some ⟨"alpha", .opened⟩ := by
  decide

/-- C6 amended: when the disable signal fires, the content script
retires the OverlayInstance (DOM presence removed) and restores the
native chat widget's visibility, but performs no session teardown: no
disconnect request is sent and the background session state is left
entirely unchanged. -/
theorem C6_disable_retires_overlay_only (sys : System)
    (h : sys.cs.detectorActive = true) :
    (handleExtensionStateChange false sys).cs.overlayPresent = false ∧
    (handleExtensionStateChange false sys).cs.nativeChatHidden = false ∧
    (handleExtensionStateChange false sys).sw = sys.sw := by
  simp [handleExtensionStateChange, h]

/-- C6 witness: the disable signal on the connected sample system. -/
theorem C6_disable_retires_overlay_only_witness :
    (handleExtensionStateChange false sampleSystem).cs.overlayPresent = false ∧
    (handleExtensionStateChange false sampleSystem).cs.nativeChatHidden = false ∧
    (handleExtensionStateChange false sampleSystem).sw = sampleSystem.sw :=
  C6_disable_retires_overlay_only sampleSystem (by decide)

/-- C7: for every page location whose first path segment is in the
exclusion set of non-channel pages, or from which no identity segment
can be extracted at all, channel resolution returns null, and the
`init` pass then requests no session, creates no overlay and emits no
error. -/
theorem C7_null_resolution_no_action (pathname : String)
    (lookup : String → Option StreamerInfo) (mountOk : Bool)
    (h : firstPathSegment pathname = none ∨
         ∃ seg, firstPathSegment pathname = some seg ∧
           twitchExcluded.contains (lowerString seg) = true) :
    extractStreamerUsername pathname = none ∧
    detectorInit pathname lookup mountOk =
      { sessionRequested := none, overlayCreated := false, errorEmitted := false } := by
  have hex : extractStreamerUsername pathname = none := by
    rcases h with h | ⟨seg, h1, h2⟩
    · simp [extractStreamerUsername, h]
    · simp [extractStreamerUsername, h1]
      simpa using h2
  exact ⟨hex, by simp [detectorInit, hex]⟩

/-- C7 witness: the directory listing page. -/
theorem C7_null_resolution_no_action_witness :
    extractStreamerUsername "/directory" = none ∧
    detectorInit "/directory" (fun _ => some ⟨"ov1"⟩) true =
      { sessionRequested := none, overlayCreated := false, errorEmitted := false } :=
  C7_null_resolution_no_action "/directory" (fun _ => some ⟨"ov1"⟩) true
    (Or.inr ⟨"directory", by decide, by decide⟩)

/-- C8: when a DOM disruption removes the overlay while the native chat
is present, the MutationObserver schedules a debounced rebuild (500 ms);
the rebuild's `CONNECT_WEBSOCKET` for the unchanged key is a strict
no-op on the open session — the connection object, the attempt counter
and the open count are all untouched. -/
theorem C8_dom_rebuild_session_untouched (s : SWState) (k : String)
    (h : alreadyConnectedTo s k = true) :
    mutationTickSchedulesReinit false true = some REINIT_DEBOUNCE_MS ∧
    step s (.connect k) = s :=
  ⟨rfl, by simp [step, connectWebSocket, h]⟩

/-- C8 witness: rebuilding over the connected sample session. -/
theorem C8_dom_rebuild_session_untouched_witness :
    mutationTickSchedulesReinit false true = some REINIT_DEBOUNCE_MS ∧
    step sampleConnected (.connect "alpha") = sampleConnected :=
  C8_dom_rebuild_session_untouched sampleConnected "alpha" (by decide)

/-- C9: hiding the native chat changes only visibility, never presence
— the Twitch hide injects a style element and leaves every native chat
element in the document; the YouTube hide keeps the chat frame in the
document (display none plus a marker attribute); retiring the overlay
and showing native chat restores the frame to its original visible
state; and none of the three operations ever removes a host-page
element. -/
theorem C9_hide_toggles_visibility_not_presence (td : TwitchDoc) (yd : YouTubeDoc)
    (h : yd.chatFrame = some { displayNone := false, allchatHiddenAttr := false }) :
    (twitchHideNativeChat td).nativeChatElems = td.nativeChatElems ∧
    twitchNativeVisible (twitchHideNativeChat td) = false ∧
    (ytHideNativeChat yd).chatFrame =
      some { displayNone := true, allchatHiddenAttr := true } ∧
    (ytShowNativeChat (ytRemoveAllChatUI (ytHideNativeChat yd))).chatFrame =
      some { displayNone := false, allchatHiddenAttr := false } ∧
    (∀ d : YouTubeDoc, (ytHideNativeChat d).chatFrame.isSome = d.chatFrame.isSome) ∧
    (∀ d : YouTubeDoc, (ytShowNativeChat d).chatFrame.isSome = d.chatFrame.isSome) ∧
    (∀ d : YouTubeDoc, (ytRemoveAllChatUI d).chatFrame = d.chatFrame) := by
  refine ⟨?_, ?_, ?_, ?_, ?_, ?_, ?_⟩
  · by_cases hh : td.hideStyleInjected <;> simp [twitchHideNativeChat, hh]
  · by_cases hh : td.hideStyleInjected <;>
      simp [twitchHideNativeChat, twitchNativeVisible, hh]
  · simp [ytHideNativeChat, h]
  · simp [ytHideNativeChat, ytRemoveAllChatUI, ytShowNativeChat, h]
  · intro d
    cases hd : d.chatFrame <;> simp [ytHideNativeChat, hd]
  · intro d
    cases hd : d.chatFrame with
    | none => simp [ytShowNativeChat, hd]
    | some f => by_cases ha : f.allchatHiddenAttr <;> simp [ytShowNativeChat, hd, ha]
  · intro d
    rfl

/-- C9 witness: a Twitch page with three native chat elements and a
YouTube page with a visible chat frame. -/
theorem C9_hide_toggles_visibility_not_presence_witness :
    (twitchHideNativeChat ⟨false, 3⟩).nativeChatElems = (⟨false, 3⟩ : TwitchDoc).nativeChatElems ∧
    twitchNativeVisible (twitchHideNativeChat ⟨false, 3⟩) = false ∧
    (ytHideNativeChat ⟨some ⟨false, false⟩, false⟩).chatFrame =
      some { displayNone := true, allchatHiddenAttr := true } ∧
    (ytShowNativeChat (ytRemoveAllChatUI (ytHideNativeChat ⟨some ⟨false, false⟩, false⟩))).chatFrame =
      some { displayNone := false, allchatHiddenAttr := false } ∧
    (∀ d : YouTubeDoc, (ytHideNativeChat d).chatFrame.isSome = d.chatFrame.isSome) ∧
    (∀ d : YouTubeDoc, (ytShowNativeChat d).chatFrame.isSome = d.chatFrame.isSome) ∧
    (∀ d : YouTubeDoc, (ytRemoveAllChatUI d).chatFrame = d.chatFrame) :=
  C9_hide_toggles_visibility_not_presence ⟨false, 3⟩ ⟨some ⟨false, false⟩, false⟩ rfl

/-- C10: a transport frame whose payload does not parse as JSON is
dropped whole: the dispatch is a strict no-op, so nothing is broadcast
and the session's state, attempt counter, heartbeat and timers are all
unchanged. -/
theorem C10_unparseable_frame_dropped (s : SWState) :
    step s (.msgEvt none) = s :=
  rfl

end AllChat
